import Mathlib

/-!
Verification of the WISATA-GROBOGAN tourism data application
(`src/index.tsx`): a shallow embedding of its data model, dashboard
aggregation, map-marker synchronization, form submission and deletion
logic, together with proofs about that embedding.
-/

namespace Wisata

/-- Type `TourismType` from `src/index.tsx`: three fixed tourism categories. -/
inductive TourismType where
  | wisataAir
  | wisataReligi
  | wisataAlam
deriving DecidableEq, Repr

/-- Type `DisasterRisk` from `src/index.tsx`: three fixed disaster-risk categories. -/
inductive DisasterRisk where
  | lakaAir
  | banjir
  | tanahLongsor
deriving DecidableEq, Repr

/-- Record type `TouristSpot` from `src/index.tsx`.  Coordinates are stored as
optional strings (`latitude?: string`); `none` models an absent field. -/
structure TouristSpot where
  id : String
  name : String
  village : String
  district : String
  type : TourismType
  capacity : Int
  risks : List DisasterRisk
  latitude : Option String
  longitude : Option String
deriving DecidableEq, Repr

/-- Constant `DISTRICTS` from `src/index.tsx`: all 19 districts of Grobogan Regency. -/
def DISTRICTS : List String :=
  ["Brati", "Gabus", "Geyer", "Godong", "Grobogan",
   "Gubug", "Karangrayung", "Kedungjati", "Klambu", "Kradenan",
   "Ngaringan", "Penawangan", "Pulokulon", "Purwodadi",
   "Tanggungharjo", "Tawangharjo", "Tegowanu", "Toroh", "Wirosari"]

/-- Table `DISTRICT_COORDINATES` from `src/index.tsx`: center coordinates per
district; lookup of an unknown key yields `none` (JS `undefined`). -/
def DISTRICT_COORDINATES : String → Option (ℚ × ℚ)
  | "Brati" => some (-7.0289, 110.8654)
  | "Gabus" => some (-7.1643, 111.0505)
  | "Geyer" => some (-7.2188, 110.9009)
  | "Godong" => some (-7.0326, 110.7107)
  | "Grobogan" => some (-6.9959, 110.9329)
  | "Gubug" => some (-7.0604, 110.6409)
  | "Karangrayung" => some (-7.1158, 110.7483)
  | "Kedungjati" => some (-7.1654, 110.6132)
  | "Klambu" => some (-7.0097, 110.8351)
  | "Kradenan" => some (-7.1581, 111.1378)
  | "Ngaringan" => some (-7.0543, 111.1098)
  | "Penawangan" => some (-7.0818, 110.8251)
  | "Pulokulon" => some (-7.1264, 111.0028)
  | "Purwodadi" => some (-7.0867, 110.9157)
  | "Tanggungharjo" => some (-7.0945, 110.5835)
  | "Tawangharjo" => some (-7.0583, 110.9856)
  | "Tegowanu" => some (-7.0645, 110.5401)
  | "Toroh" => some (-7.1353, 110.8927)
  | "Wirosari" => some (-7.0955, 111.0660)
  | _ => none

/-- Constant `TOURISM_TYPES` from `src/index.tsx` (fixed enumeration order). -/
def TOURISM_TYPES : List TourismType :=
  [.wisataAlam, .wisataAir, .wisataReligi]

/-- Constant `RISK_TYPES` from `src/index.tsx`. -/
def RISK_TYPES : List DisasterRisk :=
  [.lakaAir, .banjir, .tanahLongsor]

/-! Section: JS `parseFloat`, modelled over ℚ.

`parseFloat` skips leading whitespace, then reads the longest prefix of the
form `[+|-] (digits [. digits] | . digits) [(e|E) [+|-] digits]`; if no such
prefix exists the result is NaN, modelled here as `none`. -/

/-- Split a character list into its leading run of decimal digits and the rest. -/
def takeDigits : List Char → List Char × List Char
  | [] => ([], [])
  | c :: cs =>
    if c.isDigit then
      let (d, r) := takeDigits cs
      (c :: d, r)
    else ([], c :: cs)

/-- Numeric value of a digit string (most significant first). -/
def digitsToNat (ds : List Char) : ℕ :=
  ds.foldl (fun a c => 10 * a + (c.toNat - '0'.toNat)) 0

/-- Parse an unsigned decimal significand (`digits`, `digits.digits`,
`digits.` or `.digits`); returns the value and the unconsumed rest. -/
def parseSignificand (cs : List Char) : Option (ℚ × List Char) :=
  let (ip, r1) := takeDigits cs
  match r1 with
  | '.' :: r2 =>
    let (fp, r3) := takeDigits r2
    if ip.isEmpty && fp.isEmpty then none
    else some ((digitsToNat ip : ℚ) + (digitsToNat fp : ℚ) / (10 ^ fp.length : ℚ), r3)
  | _ =>
    if ip.isEmpty then none else some ((digitsToNat ip : ℚ), r1)

/-- Apply an optional trailing exponent part (`e`/`E`, optional sign, digits)
to an already-parsed significand; without valid exponent digits the
significand is returned unchanged (the parse stops before the `e`). -/
def applyExponent (q : ℚ) : List Char → ℚ
  | c :: r =>
    if c = 'e' ∨ c = 'E' then
      let (negExp, r2) : Bool × List Char :=
        match r with
        | '+' :: t => (false, t)
        | '-' :: t => (true, t)
        | t => (false, t)
      let (ds, _) := takeDigits r2
      if ds.isEmpty then q
      else if negExp then q / (10 ^ digitsToNat ds : ℚ)
      else q * (10 ^ digitsToNat ds : ℚ)
    else q
  | [] => q

/-- JS `parseFloat` over ℚ; `none` models NaN. -/
def jsParseFloat (s : String) : Option ℚ :=
  let cs := s.data.dropWhile fun c =>
    c = ' ' ∨ c = '\t' ∨ c = '\n' ∨ c = '\r'
  let (neg, cs2) : Bool × List Char :=
    match cs with
    | '-' :: t => (true, t)
    | '+' :: t => (false, t)
    | t => (false, t)
  match parseSignificand cs2 with
  | none => none
  | some (q, rest) =>
    let v := applyExponent q rest
    some (if neg then -v else v)

/-- JS truthiness of a possibly-NaN number: NaN and 0 are falsy. -/
def jsTruthy : Option ℚ → Bool
  | some q => q != 0
  | none => false

/-- JS `spot.latitude || "0"`: an absent or empty coordinate string is
replaced by the sentinel `"0"` before parsing. -/
def orZero : Option String → String
  | none => "0"
  | some s => if s = "" then "0" else s

/-- Parsed latitude of a record, before the fallback logic. -/
def parsedLat (s : TouristSpot) : Option ℚ :=
  jsParseFloat (orZero s.latitude)

/-- Parsed longitude of a record, before the fallback logic. -/
def parsedLng (s : TouristSpot) : Option ℚ :=
  jsParseFloat (orZero s.longitude)

/-- Whether both coordinates parse to non-zero numbers (both JS-truthy). -/
def hasExplicitCoords (s : TouristSpot) : Bool :=
  jsTruthy (parsedLat s) && jsTruthy (parsedLng s)

/-- Marker-position resolution from the `spots.forEach` body of
`MapComponent` (`src/index.tsx` lines 108-135): parse both coordinates with
`"0"` substituted for absent/empty strings; if either is falsy (NaN or 0)
and the district has a centroid, both are replaced by the centroid; a marker
is produced only when both resulting values are truthy. -/
def markerPos (s : TouristSpot) : Option (ℚ × ℚ) :=
  let la := parsedLat s
  let lb := parsedLng s
  let p :=
    if ((!jsTruthy la || !jsTruthy lb) && (DISTRICT_COORDINATES s.district).isSome) then
      match DISTRICT_COORDINATES s.district with
      | some c => (some c.1, some c.2)
      | none => (la, lb)
    else (la, lb)
  if jsTruthy p.1 && jsTruthy p.2 then
    some (p.1.getD 0, p.2.getD 0)
  else none

/-! Section: dashboard aggregation (`Dashboard` component, `src/index.tsx`). -/

/-- Function `filteredSpots` from `Dashboard`: the full list when the filter is the
sentinel `"Semua"`, otherwise only the records of the selected district. -/
def filteredSpots (spots : List TouristSpot) (selectedDistrict : String) :
    List TouristSpot :=
  if selectedDistrict = "Semua" then spots
  else spots.filter fun s => s.district == selectedDistrict

/-- Function `totalCapacity` from `Dashboard`: `filteredSpots.reduce((acc, curr) => acc + curr.capacity, 0)`. -/
def totalCapacity (fs : List TouristSpot) : Int :=
  fs.foldl (fun acc curr => acc + curr.capacity) 0

/-- Function `byType` from `Dashboard`: per-type counts over the filtered records. -/
def byType (fs : List TouristSpot) : List (TourismType × ℕ) :=
  TOURISM_TYPES.map fun t => (t, (fs.filter fun s => s.type == t).length)

/-- Function `displayDistricts` from `Dashboard`: all 19 districts under the
`"Semua"` filter, otherwise just the selected one. -/
def displayDistricts (selectedDistrict : String) : List String :=
  if selectedDistrict = "Semua" then DISTRICTS else [selectedDistrict]

/-- Function `byDistrict` from `Dashboard`: per-district counts over the filtered
records, one entry per displayed district. -/
def byDistrict (fs : List TouristSpot) (selectedDistrict : String) :
    List (String × ℕ) :=
  (displayDistricts selectedDistrict).map fun d =>
    (d, (fs.filter fun s => s.district == d).length)

/-! Section: map synchronization (`MapComponent`, `src/index.tsx` lines 101-147).

The map surface is modelled as the list of markers currently placed on it;
`markersRef` is the list of markers the component itself added and tracks.
The marker-update effect first removes every tracked marker from the
surface, then adds one marker per resolvable record, then refits the
viewport. -/

/-- A Leaflet marker as produced by the `spots.forEach` body: position plus
the popup data (`name`, `district`, `type`) bound to it. -/
structure Marker where
  lat : ℚ
  lng : ℚ
  name : String
  district : String
  type : TourismType
deriving DecidableEq, Repr

/-- The marker produced for one record, if its position resolves. -/
def markerOfSpot (s : TouristSpot) : Option Marker :=
  (markerPos s).map fun p =>
    { lat := p.1, lng := p.2, name := s.name, district := s.district, type := s.type }

/-- All markers derived from a record list, in list order. -/
def markersOf (spots : List TouristSpot) : List Marker :=
  spots.filterMap markerOfSpot

/-- The map viewport: either fitted to a bounding box with padding
(`fitBounds(group.getBounds(), { padding: [50, 50] })`) or an explicit
center and zoom (`setView([...], 10)`). -/
inductive Viewport where
  | fitted (southWest northEast : ℚ × ℚ) (padding : ℕ × ℕ)
  | view (center : ℚ × ℚ) (zoom : ℕ)
deriving DecidableEq, Repr

/-- Bounding box of a non-empty marker list (`featureGroup.getBounds()`):
south-west and north-east corners. -/
def markerBounds (ms : List Marker) : (ℚ × ℚ) × (ℚ × ℚ) :=
  match ms with
  | [] => ((0, 0), (0, 0))
  | m :: rest =>
    rest.foldl
      (fun b x => ((min b.1.1 x.lat, min b.1.2 x.lng), (max b.2.1 x.lat, max b.2.2 x.lng)))
      ((m.lat, m.lng), (m.lat, m.lng))

/-- State of the map component: markers on the surface, markers tracked in
`markersRef.current`, and the current viewport. -/
structure MapState where
  surface : List Marker
  tracked : List Marker
  viewport : Viewport
deriving DecidableEq, Repr

/-- Map state right after initialization:
`window.L.map(...).setView([-7.0867, 110.9157], 10)` with no markers. -/
def initMapState : MapState :=
  { surface := [], tracked := [], viewport := .view (-7.0867, 110.9157) 10 }

/-- Model of `markersRef.current.forEach(marker => marker.remove())`: remove each
tracked marker from the surface, one occurrence per tracked marker. -/
def clearMarkers (surface tracked : List Marker) : List Marker :=
  tracked.foldl (fun s m => s.erase m) surface

/-- One invocation of the marker-update effect (`useEffect` on `[spots]`):
clear all tracked markers, add the markers of the current record list, and
refit the viewport (fit-to-bounds if any marker exists, else reset to the
default center and zoom). -/
def syncMarkers (st : MapState) (spots : List TouristSpot) : MapState :=
  let cleared := clearMarkers st.surface st.tracked
  let ms := markersOf spots
  { surface := cleared ++ ms
    tracked := ms
    viewport :=
      if ms.length > 0 then
        .fitted (markerBounds ms).1 (markerBounds ms).2 (50, 50)
      else
        .view (-7.0867, 110.9157) 10 }

/-! Section: form submission (`InputForm.handleSubmit`) and the store (`App`). -/

/-- The `formData` state of `InputForm`.  `name`, `village`, `district`,
`latitude` and `longitude` are strings (initialized to `""` or a default);
`type`, `capacity` and `risks` are optional, with `none` on `capacity` also
covering a `parseInt` result of NaN from a non-numeric input. -/
structure FormData where
  name : String
  village : String
  district : String
  type : Option TourismType
  capacity : Option Int
  risks : Option (List DisasterRisk)
  latitude : String
  longitude : String
deriving DecidableEq, Repr

/-- Outcome of `handleSubmit`: either blocked by the validation `alert`
with its message, or a new record handed to `onAddSpot`. -/
inductive SubmitResult where
  | blocked (msg : String)
  | added (spot : TouristSpot)
deriving DecidableEq, Repr

/-- Model of `Number(formData.capacity) || 0`: NaN (here `none`) and 0 both fall
through to 0. -/
def numOrZero : Option Int → Int
  | none => 0
  | some n => if n == 0 then 0 else n

/-- Record `newSpot` built by `handleSubmit` (`src/index.tsx` lines 209-219): the
record built from the form, with the defaulting rules
`formData.district || DISTRICTS[0]`, `formData.type || 'Wisata Alam'`,
`Number(formData.capacity) || 0` and `formData.risks || []`. -/
def newSpotOf (fd : FormData) (nowId : String) : TouristSpot :=
  { id := nowId
    name := fd.name
    village := fd.village
    district := if fd.district = "" then DISTRICTS.getD 0 "" else fd.district
    type := fd.type.getD .wisataAlam
    capacity := numOrZero fd.capacity
    risks := fd.risks.getD []
    latitude := some fd.latitude
    longitude := some fd.longitude }

/-- Function `handleSubmit` from `InputForm` (`src/index.tsx` lines 202-221):
reject when `name` or `village` is falsy; otherwise build the new record
with its defaulting rules. -/
def handleSubmit (fd : FormData) (nowId : String) : SubmitResult :=
  if fd.name = "" ∨ fd.village = "" then
    .blocked "Mohon lengkapi nama dan lokasi desa."
  else
    .added (newSpotOf fd nowId)

/-- Function `addSpot` from `App`: `setSpots([spot, ...spots])`, prepending. -/
def addSpot (spot : TouristSpot) (spots : List TouristSpot) : List TouristSpot :=
  spot :: spots

/-- A full submission: `handleSubmit` followed by `addSpot` when it
produced a record, the unchanged store when it was blocked. -/
def submitForm (fd : FormData) (nowId : String) (spots : List TouristSpot) :
    List TouristSpot :=
  match handleSubmit fd nowId with
  | .blocked _ => spots
  | .added s => addSpot s spots

/-- Function `deleteSpot` from `App`: on confirmation, keep exactly the records
whose id differs from the target; on decline, do nothing. -/
def deleteSpot (confirmed : Bool) (spots : List TouristSpot) (targetId : String) :
    List TouristSpot :=
  if confirmed then spots.filter fun s => s.id != targetId else spots

/-! Section: concrete records used by witnesses and counterexamples. -/

/-- A record with explicit parseable non-zero coordinates. -/
def spotBledug : TouristSpot :=
  { id := "1700000000000", name := "Bledug Kuwu", village := "Kuwu",
    district := "Kradenan", type := .wisataAlam, capacity := 500,
    risks := [], latitude := some "-7.09", longitude := some "110.92" }

/-- A record with empty coordinate strings and a known district. -/
def spotGoaLawa : TouristSpot :=
  { id := "1700000000001", name := "Goa Lawa", village := "Danyang",
    district := "Purwodadi", type := .wisataAlam, capacity := 200,
    risks := [.tanahLongsor], latitude := some "", longitude := some "" }

/-- A record whose district lies outside the 19 enumerated districts
(used against the per-district sum of claim C2). -/
def spotDemak : TouristSpot :=
  { id := "1700000000002", name := "Luar Kabupaten", village := "Bintoro",
    district := "Demak", type := .wisataAir, capacity := 100,
    risks := [], latitude := none, longitude := none }

/-- Another out-of-regency record (used by the C8 witness). -/
def spotKudus : TouristSpot :=
  { id := "1700000000003", name := "Menara", village := "Kauman",
    district := "Kudus", type := .wisataReligi, capacity := 50,
    risks := [], latitude := none, longitude := none }

/-- A completed form for a valid submission. -/
def fdGood : FormData :=
  { name := "Api Abadi Mrapen", village := "Manggarmas", district := "Godong",
    type := some .wisataAlam, capacity := some 150, risks := some [.banjir],
    latitude := "-7.10", longitude := "110.77" }

/-- A form whose `name` is still empty. -/
def fdBlank : FormData :=
  { name := "", village := "Manggarmas", district := "Godong",
    type := some .wisataAlam, capacity := some 150, risks := some [],
    latitude := "", longitude := "" }

/-- A valid form whose capacity input did not parse (`parseInt` gave NaN). -/
def fdNanCap : FormData :=
  { name := "Waduk Kedungombo", village := "Rambat", district := "Geyer",
    type := some .wisataAir, capacity := none, risks := some [.lakaAir],
    latitude := "", longitude := "" }

/-! Section: helper lemmas. -/

lemma jsTruthy_some (q : ℚ) : jsTruthy (some q) = (q != 0) := rfl

lemma jsTruthy_none : jsTruthy none = false := rfl

/-- Every centroid in the district table has non-zero latitude and
longitude, so a centroid fallback always passes the final truthiness
check of the marker loop. -/
lemma centroid_nonzero (d : String) (c : ℚ × ℚ)
    (h : DISTRICT_COORDINATES d = some c) : c.1 ≠ 0 ∧ c.2 ≠ 0 := by
  unfold DISTRICT_COORDINATES at h
  split at h <;> first
    | (injection h with h; subst h; exact ⟨by norm_num, by norm_num⟩)
    | (injection h)

/-- Removing a marker list from itself empties the surface. -/
lemma clearMarkers_self (l : List Marker) : clearMarkers l l = [] := by
  induction l with
  | nil => rfl
  | cons a t ih =>
    unfold clearMarkers at *
    simpa [List.erase_cons_head] using ih

/-- Any run of sync calls preserves the invariant that the surface holds
exactly the tracked markers. -/
lemma foldl_sync_inv (calls : List (List TouristSpot)) :
    ∀ st : MapState, st.surface = st.tracked →
      (calls.foldl syncMarkers st).surface = (calls.foldl syncMarkers st).tracked := by
  induction calls with
  | nil => intro st h; exact h
  | cons c t ih =>
    intro st h
    apply ih
    simp [syncMarkers, h, clearMarkers_self]

/-- The three per-type counts partition the record list. -/
lemma byType_sum (fs : List TouristSpot) :
    ((byType fs).map Prod.snd).sum = fs.length := by
  simp only [byType, TOURISM_TYPES, List.map_cons, List.map_nil, List.sum_cons,
    List.sum_nil]
  induction fs with
  | nil => simp
  | cons a t ih =>
    cases h : a.type <;>
      simp [List.filter_cons, h] <;> omega

lemma districts_nodup : DISTRICTS.Nodup := by decide

lemma sum_filter_cons (ds : List String) (a : TouristSpot) (t : List TouristSpot) :
    (ds.map fun d => (((a :: t).filter fun s => s.district == d)).length).sum
      = ds.count a.district
        + (ds.map fun d => ((t.filter fun s => s.district == d)).length).sum := by
  induction ds with
  | nil => simp
  | cons d rest ih =>
    rw [List.map_cons, List.sum_cons, List.map_cons, List.sum_cons, ih]
    by_cases h : a.district = d <;>
      simp [List.filter_cons, h, List.count_cons] <;> omega

/-- Over a duplicate-free district list covering every record, the
per-district counts partition the record list. -/
lemma sum_filter_eq_length (ds : List String) (hn : ds.Nodup) :
    ∀ fs : List TouristSpot, (∀ s ∈ fs, s.district ∈ ds) →
      (ds.map fun d => ((fs.filter fun s => s.district == d)).length).sum
        = fs.length := by
  intro fs
  induction fs with
  | nil => intro _; simp
  | cons a t ih =>
    intro h
    rw [sum_filter_cons, ih (fun s hs => h s (List.mem_cons_of_mem a hs)),
      List.count_eq_one_of_mem hn (h a (List.mem_cons_self a t))]
    simp [Nat.add_comm]

lemma snd_map_pair (ds : List String) (g : String → ℕ) :
    ((ds.map fun d => (d, g d)).map Prod.snd) = ds.map g := by
  induction ds with
  | nil => rfl
  | cons d rest ih => simp [ih]

/-- Per-district counts under the `"Semua"` filter sum to the record count
whenever the district of every record is one of the 19 enumerated districts. -/
lemma byDistrict_sum (fs : List TouristSpot)
    (h : ∀ s ∈ fs, s.district ∈ DISTRICTS) :
    ((byDistrict fs "Semua").map Prod.snd).sum = fs.length := by
  rw [byDistrict, show displayDistricts "Semua" = DISTRICTS from rfl, snd_map_pair]
  exact sum_filter_eq_length DISTRICTS districts_nodup fs h

/-! Section: the claims. -/

/-- C1: marker position resolution order.  If both coordinates parse to
non-zero numbers the marker sits exactly there; otherwise, a district with
a centroid yields the centroid; otherwise no marker is produced.  An
absent, empty or `"0"` coordinate string is treated as unset. -/
theorem c1_marker_resolution (s : TouristSpot) :
    (∀ a b, parsedLat s = some a → a ≠ 0 → parsedLng s = some b → b ≠ 0 →
      markerPos s = some (a, b))
  ∧ (hasExplicitCoords s = false →
      ∀ c, DISTRICT_COORDINATES s.district = some c → markerPos s = some c)
  ∧ (hasExplicitCoords s = false →
      DISTRICT_COORDINATES s.district = none → markerPos s = none)
  ∧ (s.latitude = none ∨ s.latitude = some "" ∨ s.latitude = some "0" →
      jsTruthy (parsedLat s) = false) := by
  refine ⟨?_, ?_, ?_, ?_⟩
  · intro a b ha h0a hb h0b
    simp [markerPos, ha, hb, jsTruthy_some, bne_iff_ne, h0a, h0b]
  · intro h c hc
    have hnz := centroid_nonzero s.district c hc
    rw [hasExplicitCoords, Bool.and_eq_false_iff] at h
    rcases h with h | h <;>
      simp [markerPos, h, hc, jsTruthy_some, bne_iff_ne, hnz.1, hnz.2]
  · intro h hc
    rw [hasExplicitCoords] at h
    simp [markerPos, hc, h]
  · intro h
    rcases h with h | h | h <;>
      simp +decide [parsedLat, orZero, h, jsParseFloat, parseSignificand,
        takeDigits, digitsToNat, applyExponent, jsTruthy]

/-- Witness for C1: a record with explicit coordinates `-7.09`/`110.92`
gets a marker exactly there; empty coordinate strings with district
Purwodadi fall back to the Purwodadi centroid; an unknown district with no
coordinates yields no marker. -/
theorem c1_witness :
    markerPos spotBledug = some (-7.09, 110.92)
  ∧ markerPos spotGoaLawa = some (-7.0867, 110.9157)
  ∧ markerPos spotKudus = none := by
  refine ⟨?_, ?_, ?_⟩
  · exact (c1_marker_resolution spotBledug).1 (-7.09) (110.92)
      (by simp +decide [spotBledug, parsedLat, orZero, jsParseFloat, parseSignificand,
            takeDigits, digitsToNat, applyExponent]; norm_num)
      (by norm_num)
      (by simp +decide [spotBledug, parsedLng, orZero, jsParseFloat, parseSignificand,
            takeDigits, digitsToNat, applyExponent]; norm_num)
      (by norm_num)
  · exact (c1_marker_resolution spotGoaLawa).2.1
      (by simp +decide [spotGoaLawa, hasExplicitCoords, parsedLat, parsedLng, orZero,
            jsParseFloat, parseSignificand, takeDigits, digitsToNat, applyExponent, jsTruthy])
      (-7.0867, 110.9157) rfl
  · exact (c1_marker_resolution spotKudus).2.2.1
      (by simp +decide [spotKudus, hasExplicitCoords, parsedLat, parsedLng, orZero,
            jsParseFloat, parseSignificand, takeDigits, digitsToNat, applyExponent, jsTruthy])
      rfl

/-- C2 counterexample: a single record whose district `"Demak"` is not one
of the 19 enumerated districts is counted in the total but in no
per-district entry, so the claimed pair of sum equalities fails. -/
theorem c2_counterexample :
    ¬ (((byType (filteredSpots [spotDemak] "Semua")).map Prod.snd).sum
          = (filteredSpots [spotDemak] "Semua").length
      ∧ ((byDistrict (filteredSpots [spotDemak] "Semua") "Semua").map Prod.snd).sum
          = (filteredSpots [spotDemak] "Semua").length) := by
  decide

/-- C2 (amended): for every non-empty record list in which the district
of every record is one of the 19 enumerated districts, the per-type counts and the
per-district counts under the `"Semua"` filter each sum to the total
count. -/
theorem c2_sums (spots : List TouristSpot) (_hne : spots ≠ [])
    (hd : ∀ s ∈ spots, s.district ∈ DISTRICTS) :
    ((byType (filteredSpots spots "Semua")).map Prod.snd).sum
        = (filteredSpots spots "Semua").length
  ∧ ((byDistrict (filteredSpots spots "Semua") "Semua").map Prod.snd).sum
        = (filteredSpots spots "Semua").length := by
  rw [show filteredSpots spots "Semua" = spots from rfl]
  exact ⟨byType_sum spots, byDistrict_sum spots hd⟩

/-- Witness for C2: both sum equalities hold on a concrete two-record list
with in-regency districts. -/
theorem c2_witness :
    ((byType (filteredSpots [spotBledug, spotGoaLawa] "Semua")).map Prod.snd).sum
        = (filteredSpots [spotBledug, spotGoaLawa] "Semua").length
  ∧ ((byDistrict (filteredSpots [spotBledug, spotGoaLawa] "Semua") "Semua").map
        Prod.snd).sum
        = (filteredSpots [spotBledug, spotGoaLawa] "Semua").length :=
  c2_sums [spotBledug, spotGoaLawa] (by decide) (by decide)

/-- C3: with a specific district selected, every filtered record has that
district and the per-district list has exactly one entry. -/
theorem c3_district_filter (spots : List TouristSpot) (D : String)
    (hD : D ∈ DISTRICTS) :
    (∀ s ∈ filteredSpots spots D, s.district = D)
  ∧ (byDistrict (filteredSpots spots D) D).length = 1 := by
  have hne : D ≠ "Semua" := by
    intro h
    subst h
    exact absurd hD (by decide)
  constructor
  · intro s hs
    rw [filteredSpots, if_neg hne] at hs
    simpa using List.of_mem_filter hs
  · rw [byDistrict, displayDistricts, if_neg hne]
    simp

/-- Witness for C3: filtering a concrete list by Kradenan yields a single
per-district entry. -/
theorem c3_witness :
    (byDistrict (filteredSpots [spotBledug, spotDemak] "Kradenan") "Kradenan").length
      = 1 :=
  (c3_district_filter [spotBledug, spotDemak] "Kradenan" (by decide)).2

/-- C4: after any sequence of sync invocations, the surface holds exactly
the markers derived from the record list of the last invocation, and the
tracked list agrees with the surface — no stale and no duplicate markers. -/
theorem c4_markers_replaced (calls : List (List TouristSpot))
    (spots : List TouristSpot) :
    (((calls ++ [spots]).foldl syncMarkers initMapState).surface = markersOf spots)
  ∧ (((calls ++ [spots]).foldl syncMarkers initMapState).tracked = markersOf spots) := by
  have hinv := foldl_sync_inv calls initMapState rfl
  rw [List.foldl_append]
  constructor
  · simp [List.foldl_cons, List.foldl_nil, syncMarkers, hinv, clearMarkers_self]
  · simp [List.foldl_cons, List.foldl_nil, syncMarkers]

/-- C5: syncing twice with the same record list gives exactly the same map
state (hence the same marker count and viewport) as syncing once, and the
resulting viewport is fit-to-bounds when the marker set is non-empty and
the default center and zoom when it is empty. -/
theorem c5_sync_idempotent (calls : List (List TouristSpot))
    (spots : List TouristSpot) :
    ((calls ++ [spots, spots]).foldl syncMarkers initMapState
      = (calls ++ [spots]).foldl syncMarkers initMapState)
  ∧ (markersOf spots ≠ [] →
      ((calls ++ [spots]).foldl syncMarkers initMapState).viewport
        = Viewport.fitted (markerBounds (markersOf spots)).1
            (markerBounds (markersOf spots)).2 (50, 50))
  ∧ (markersOf spots = [] →
      ((calls ++ [spots]).foldl syncMarkers initMapState).viewport
        = Viewport.view (-7.0867, 110.9157) 10) := by
  have hinv := foldl_sync_inv calls initMapState rfl
  refine ⟨?_, ?_, ?_⟩
  · rw [List.foldl_append, List.foldl_append]
    simp only [List.foldl_cons, List.foldl_nil]
    simp [syncMarkers, hinv, clearMarkers_self]
  · intro h
    rw [List.foldl_append]
    simp only [List.foldl_cons, List.foldl_nil]
    simp [syncMarkers, List.length_pos, h]
  · intro h
    rw [List.foldl_append]
    simp only [List.foldl_cons, List.foldl_nil]
    simp [syncMarkers, h]

/-- Witness for C5: a concrete sync run whose marker set is empty resets
the viewport to the default view, and double-syncing a concrete non-empty
list equals single-syncing it. -/
theorem c5_witness :
    ([[spotGoaLawa], [spotGoaLawa]].foldl syncMarkers initMapState
      = [[spotGoaLawa]].foldl syncMarkers initMapState)
  ∧ ([[spotKudus]].foldl syncMarkers initMapState).viewport
      = Viewport.view (-7.0867, 110.9157) 10 := by
  have h0 : jsParseFloat "0" = some 0 := by
    simp +decide [jsParseFloat, parseSignificand, takeDigits, digitsToNat,
      applyExponent]
  have hk : markerPos spotKudus = none := by
    simp [markerPos, parsedLat, parsedLng, spotKudus, orZero, h0, jsTruthy_some,
      show DISTRICT_COORDINATES "Kudus" = none from rfl]
  constructor
  · exact (c5_sync_idempotent [] [spotGoaLawa]).1
  · exact (c5_sync_idempotent [] [spotKudus]).2.2
      (by simp [markersOf, markerOfSpot, hk])

/-- C6: under the `min="0"` constraint of the form on the capacity input, every
record built by `handleSubmit` has non-negative capacity; an unparseable
capacity (NaN) is coerced to 0, and such a form is still submitted rather
than rejected. -/
theorem c6_capacity (fd : FormData) (nowId : String)
    (hcap : ∀ n, fd.capacity = some n → 0 ≤ n) :
    0 ≤ (newSpotOf fd nowId).capacity
  ∧ (fd.capacity = none → (newSpotOf fd nowId).capacity = 0)
  ∧ (fd.name ≠ "" → fd.village ≠ "" →
      handleSubmit fd nowId = SubmitResult.added (newSpotOf fd nowId)) := by
  refine ⟨?_, ?_, ?_⟩
  · show 0 ≤ numOrZero fd.capacity
    cases hc : fd.capacity with
    | none => simp [numOrZero]
    | some n =>
      have hn := hcap n hc
      rw [numOrZero]
      split <;> omega
  · intro hc
    show numOrZero fd.capacity = 0
    rw [hc, numOrZero]
  · intro hname hvill
    rw [handleSubmit, if_neg (by push_neg; exact ⟨hname, hvill⟩)]

/-- Witness for C6: a valid form whose capacity input failed to parse is
accepted and produces a record of capacity 0. -/
theorem c6_witness :
    0 ≤ (newSpotOf fdNanCap "1700000000099").capacity
  ∧ (newSpotOf fdNanCap "1700000000099").capacity = 0
  ∧ handleSubmit fdNanCap "1700000000099"
      = SubmitResult.added (newSpotOf fdNanCap "1700000000099") := by
  have h := c6_capacity fdNanCap "1700000000099"
    (by intro n hn; simp [fdNanCap] at hn)
  exact ⟨h.1, h.2.1 rfl, h.2.2 (by decide) (by decide)⟩

/-- C7: submission with an empty name or village is blocked by the alert
and leaves the record list unchanged; otherwise exactly the one new record
is prepended to the front of the list. -/
theorem c7_submission (fd : FormData) (nowId : String)
    (spots : List TouristSpot) :
    ((fd.name = "" ∨ fd.village = "") →
      handleSubmit fd nowId = SubmitResult.blocked "Mohon lengkapi nama dan lokasi desa."
      ∧ submitForm fd nowId spots = spots)
  ∧ (fd.name ≠ "" → fd.village ≠ "" →
      handleSubmit fd nowId = SubmitResult.added (newSpotOf fd nowId)
      ∧ submitForm fd nowId spots = newSpotOf fd nowId :: spots) := by
  constructor
  · intro h
    have hb : handleSubmit fd nowId
        = SubmitResult.blocked "Mohon lengkapi nama dan lokasi desa." := by
      rw [handleSubmit, if_pos h]
    exact ⟨hb, by rw [submitForm, hb]⟩
  · intro hname hvill
    have ha : handleSubmit fd nowId = SubmitResult.added (newSpotOf fd nowId) := by
      rw [handleSubmit, if_neg (by push_neg; exact ⟨hname, hvill⟩)]
    exact ⟨ha, by rw [submitForm, ha]; rfl⟩

/-- Witness for C7: a blank-name form leaves a concrete store unchanged; a
completed form prepends exactly its new record. -/
theorem c7_witness :
    submitForm fdBlank "1700000000010" [spotBledug] = [spotBledug]
  ∧ submitForm fdGood "1700000000011" [spotBledug]
      = newSpotOf fdGood "1700000000011" :: [spotBledug] :=
  ⟨((c7_submission fdBlank "1700000000010" [spotBledug]).1 (Or.inl rfl)).2,
   ((c7_submission fdGood "1700000000011" [spotBledug]).2 (by decide) (by decide)).2⟩

/-- C8: under the `"Semua"` filter a record with a non-enumerated district
is still part of the filtered list every aggregate is computed from, yet
belongs to no per-district bucket; when every district is enumerated the
per-district counts sum to the total count. -/
theorem c8_unknown_district (spots : List TouristSpot) :
    (∀ s ∈ spots, s.district ∉ DISTRICTS →
      s ∈ filteredSpots spots "Semua"
      ∧ ∀ d ∈ DISTRICTS,
          s ∉ (filteredSpots spots "Semua").filter fun r => r.district == d)
  ∧ ((∀ s ∈ spots, s.district ∈ DISTRICTS) →
      ((byDistrict (filteredSpots spots "Semua") "Semua").map Prod.snd).sum
        = (filteredSpots spots "Semua").length) := by
  have hf : filteredSpots spots "Semua" = spots := rfl
  constructor
  · intro s hs hnot
    refine ⟨by rw [hf]; exact hs, ?_⟩
    intro d hd hmem
    rw [hf] at hmem
    have hdis := List.of_mem_filter hmem
    rw [beq_iff_eq] at hdis
    exact hnot (hdis ▸ hd)
  · intro h
    rw [hf]
    exact byDistrict_sum spots h

/-- Witness for C8: a concrete out-of-regency record is in the filtered
list but in no district bucket, while a fully in-regency list satisfies the
per-district sum equality. -/
theorem c8_witness :
    spotKudus ∈ filteredSpots [spotKudus, spotBledug] "Semua"
  ∧ spotKudus ∉ (filteredSpots [spotKudus, spotBledug] "Semua").filter
      (fun r => r.district == "Purwodadi")
  ∧ ((byDistrict (filteredSpots [spotBledug] "Semua") "Semua").map Prod.snd).sum
      = (filteredSpots [spotBledug] "Semua").length := by
  have h := (c8_unknown_district [spotKudus, spotBledug]).1 spotKudus
    (by decide) (by decide)
  exact ⟨h.1, h.2 "Purwodadi" (by decide),
    (c8_unknown_district [spotBledug]).2 (by decide)⟩

/-- C9: the filtered subset handed to the map, table and aggregates is an
order-preserving subsequence of the stored list, and record creation
prepends to the front (newest-first). -/
theorem c9_filter_order (spots : List TouristSpot) (sel : String)
    (spot : TouristSpot) :
    List.Sublist (filteredSpots spots sel) spots
  ∧ addSpot spot spots = spot :: spots := by
  constructor
  · rw [filteredSpots]
    split
    · exact List.Sublist.refl spots
    · exact List.filter_sublist spots
  · rfl

/-- C10: confirmed deletion removes exactly the records with the given id,
keeps all others in their original relative order, and is a no-op when no
record has that id. -/
theorem c10_delete (spots : List TouristSpot) (targetId : String) :
    (∀ s ∈ deleteSpot true spots targetId, s.id ≠ targetId)
  ∧ (∀ s ∈ spots, s.id ≠ targetId → s ∈ deleteSpot true spots targetId)
  ∧ List.Sublist (deleteSpot true spots targetId) spots
  ∧ ((∀ s ∈ spots, s.id ≠ targetId) → deleteSpot true spots targetId = spots) := by
  have hd : deleteSpot true spots targetId
      = spots.filter fun s => s.id != targetId := rfl
  refine ⟨?_, ?_, ?_, ?_⟩
  · intro s hs
    rw [hd] at hs
    simpa using List.of_mem_filter hs
  · intro s hs hne
    rw [hd]
    exact List.mem_filter.mpr ⟨hs, by simpa using hne⟩
  · rw [hd]
    exact List.filter_sublist spots
  · intro h
    rw [hd]
    apply List.filter_eq_self.mpr
    intro s hs
    simpa using h s hs

/-- Witness for C10: deleting the id of one concrete record keeps the other
record; deleting an absent id leaves the concrete list identical. -/
theorem c10_witness :
    spotGoaLawa ∈ deleteSpot true [spotBledug, spotGoaLawa] "1700000000000"
  ∧ deleteSpot true [spotBledug, spotGoaLawa] "9999" = [spotBledug, spotGoaLawa] :=
  ⟨(c10_delete [spotBledug, spotGoaLawa] "1700000000000").2.1 spotGoaLawa
      (by decide) (by decide),
   (c10_delete [spotBledug, spotGoaLawa] "9999").2.2.2 (by decide)⟩

end Wisata
